import Mathlib

/-!
Verification of the amortization and projection engine of the
real-estate-calculator repository (`src/calculator.py`).

The Python source is shallowly embedded over `ℚ`.  Python `float`
arithmetic is modelled by exact rational arithmetic; all exponents in the
source are integers (`years`, `term_years*12`, `years - 1`, …), so `**`
is modelled by `zpow` on `ℚ` (with `Monoid.npow` where the source index
is a `range` counter, hence a natural number).  The Python mutation of
`self.annual_appreciation_rate` inside `generate_risk_scenarios` is
modelled by explicit state passing.
-/

namespace RECalc

/-- Embeds the class `MortgageLoan` (`src/calculator.py`, lines 11-18):
the constructor fields.  `monthly_payment` (set in `__init__` from
`_calculate_initial_payment`) is the derived function below. -/
structure MortgageLoan where
  loan_amount : ℚ
  base_interest_rate : ℚ
  term_years : ℤ
  is_fixed : Bool
  prime_spread : ℚ
deriving Repr, DecidableEq

/-- Embeds `MortgageLoan._calculate_initial_payment` (lines 20-23):
`L * (r*(1+r)^n) / ((1+r)^n - 1)` with `n = term_years*12`,
`r = base_interest_rate/12/100`. -/
def MortgageLoan.calculate_initial_payment (m : MortgageLoan) : ℚ :=
  let n : ℤ := m.term_years * 12
  let r : ℚ := m.base_interest_rate / 12 / 100
  m.loan_amount * (r * (1 + r) ^ n) / ((1 + r) ^ n - 1)

/-- Embeds `self.monthly_payment`, assigned once in `__init__` (line 18). -/
def MortgageLoan.monthly_payment (m : MortgageLoan) : ℚ :=
  m.calculate_initial_payment

/-- Embeds `MortgageLoan._calculate_remaining_balance` (lines 41-47):
returns `0` when `t ≥ n`, otherwise
`L * ((1+r)^n - (1+r)^t) / ((1+r)^n - 1)` with `t = year*12`. -/
def MortgageLoan.calculate_remaining_balance (m : MortgageLoan) (year : ℤ) : ℚ :=
  let n : ℤ := m.term_years * 12
  let t : ℤ := year * 12
  let r : ℚ := m.base_interest_rate / 12 / 100
  if t ≥ n then 0
  else m.loan_amount * ((1 + r) ^ n - (1 + r) ^ t) / ((1 + r) ^ n - 1)

/-- Embeds `MortgageLoan.get_payment_at_year` (lines 25-39). -/
def MortgageLoan.get_payment_at_year (m : MortgageLoan)
    (year : ℤ) (inflation_rate prime_base_rate : ℚ) : ℚ :=
  if m.is_fixed then m.monthly_payment
  else
    let effective_rate : ℚ := (prime_base_rate + inflation_rate + m.prime_spread) / 12 / 100
    let remaining_term : ℤ := (m.term_years - year) * 12
    let remaining_balance : ℚ := m.calculate_remaining_balance year
    if remaining_term ≤ 0 then 0
    else remaining_balance * (effective_rate * (1 + effective_rate) ^ remaining_term) /
      ((1 + effective_rate) ^ remaining_term - 1)

/-- Embeds the class `RealEstateInvestmentAnalysis` (lines 50-90): the raw
constructor parameters.  All derived fields (`down_payment`,
`loan_amount`, the two `MortgageLoan` objects, …) are the functions
below, exactly as computed in `__init__`. -/
structure Analysis where
  property_value : ℚ
  down_payment_percent : ℚ
  fixed_rate : ℚ
  variable_rate : ℚ
  loan_term_years : ℤ
  rental_income : ℚ
  annual_appreciation_rate : ℚ
  years : ℤ
  central_rent : ℚ
  monthly_savings : ℚ
  savings_return_rate : ℚ
  inflation_rate : ℚ
  fixed_portion : ℚ
  prime_base_rate : ℚ
deriving Repr, DecidableEq

/-- Embeds `self.down_payment = property_value * (down_payment_percent / 100)` (line 72). -/
def Analysis.down_payment (a : Analysis) : ℚ :=
  a.property_value * (a.down_payment_percent / 100)

/-- Embeds `self.loan_amount = property_value - self.down_payment` (line 73). -/
def Analysis.loan_amount (a : Analysis) : ℚ :=
  a.property_value - a.down_payment

/-- Embeds `self.fixed_loan_amount = self.loan_amount * (fixed_portion / 100)` (line 74). -/
def Analysis.fixed_loan_amount (a : Analysis) : ℚ :=
  a.loan_amount * (a.fixed_portion / 100)

/-- Embeds `self.variable_loan_amount = self.loan_amount * ((100 - fixed_portion) / 100)` (line 75). -/
def Analysis.variable_loan_amount (a : Analysis) : ℚ :=
  a.loan_amount * ((100 - a.fixed_portion) / 100)

/-- Embeds `self.fixed_loan` (lines 78-83): fixed-rate tranche, `is_fixed=True`,
default `prime_spread=0`. -/
def Analysis.fixed_loan (a : Analysis) : MortgageLoan :=
  { loan_amount := a.fixed_loan_amount
    base_interest_rate := a.fixed_rate
    term_years := a.loan_term_years
    is_fixed := true
    prime_spread := 0 }

/-- Embeds `self.variable_loan` (lines 84-90): variable-rate tranche with
`prime_spread = variable_rate - prime_base_rate`. -/
def Analysis.variable_loan (a : Analysis) : MortgageLoan :=
  { loan_amount := a.variable_loan_amount
    base_interest_rate := a.variable_rate
    term_years := a.loan_term_years
    is_fixed := false
    prime_spread := a.variable_rate - a.prime_base_rate }

/-- Embeds `RealEstateInvestmentAnalysis._calculate_total_mortgage_payment` (lines 92-96). -/
def Analysis.calculate_total_mortgage_payment (a : Analysis) (year : ℤ) : ℚ :=
  a.fixed_loan.get_payment_at_year year a.inflation_rate a.prime_base_rate +
    a.variable_loan.get_payment_at_year year a.inflation_rate a.prime_base_rate

/-- Embeds `RealEstateInvestmentAnalysis._calculate_remaining_balance` (lines 98-102). -/
def Analysis.calculate_remaining_balance (a : Analysis) (year : ℤ) : ℚ :=
  a.fixed_loan.calculate_remaining_balance year +
    a.variable_loan.calculate_remaining_balance year

/-- Embeds `RealEstateInvestmentAnalysis._calculate_inflation_adjusted_value`
(lines 104-106): `nominal / (1 + inflation_rate/100) ^ years`. -/
def Analysis.calculate_inflation_adjusted_value (a : Analysis)
    (nominal_value : ℚ) (years : ℤ) : ℚ :=
  nominal_value / (1 + a.inflation_rate / 100) ^ years

/-- Embeds `RealEstateInvestmentAnalysis._calculate_inflated_income_stream`
(lines 108-114): `for year in range(years): total += monthly*12*(1+i/100)^year`.
A Python `range` on a negative argument is empty, matched by `Int.toNat`. -/
def Analysis.calculate_inflated_income_stream (a : Analysis)
    (monthly_amount : ℚ) (years : ℤ) : ℚ :=
  (List.range years.toNat).foldl
    (fun total year => total + monthly_amount * 12 * (1 + a.inflation_rate / 100) ^ year) 0

/-- One `{nominal, real}` metric pair of a scenario result dict. -/
structure MoneyPair where
  nominal : ℚ
  real : ℚ
deriving Repr, DecidableEq

/-- The `mortgage_breakdown` sub-dict of the buy-scenario result (lines 173-180). -/
structure MortgageBreakdown where
  fixed_payment : ℚ
  variable_payment : ℚ
  fixed_balance : ℚ
  variable_balance : ℚ
deriving Repr, DecidableEq

/-- The `result` dict built by `calculate_buy_scenario` (lines 135-181),
before the `show_real_values` projection. -/
structure BuyResult where
  property_value : MoneyPair
  remaining_balance : MoneyPair
  nav : MoneyPair
  mortgage_payment : MoneyPair
  rental_income : MoneyPair
  monthly_net_income : MoneyPair
  central_rent : MoneyPair
  total_monthly_cashflow : MoneyPair
  ltv : ℚ
  default_risk : String
  mortgage_breakdown : MortgageBreakdown
deriving Repr, DecidableEq

/-- Embeds `RealEstateInvestmentAnalysis.calculate_buy_scenario` (lines 116-181).
The final `formatted_results` loop (lines 183-192) only selects
`real` or `nominal` from each pair; it is modelled by
`MoneyPair.select` below. -/
def Analysis.calculate_buy_scenario (a : Analysis) (property_value_change : ℚ) : BuyResult :=
  let current_value := a.property_value * (1 + property_value_change / 100)
  let nominal_future_value :=
    current_value * (1 + a.annual_appreciation_rate / 100) ^ a.years
  let remaining_balance := a.calculate_remaining_balance a.years
  let final_monthly_payment := a.calculate_total_mortgage_payment (a.years - 1)
  let final_year_monthly_rental :=
    a.rental_income * (1 + a.inflation_rate / 100) ^ (a.years - 1)
  let final_year_monthly_central_rent :=
    a.central_rent * (1 + a.inflation_rate / 100) ^ (a.years - 1)
  let nominal_monthly_net_income := final_year_monthly_rental - final_monthly_payment
  let nominal_nav := nominal_future_value - remaining_balance
  let current_ltv := remaining_balance / nominal_future_value * 100
  let default_risk :=
    if current_ltv > 90 then "High" else if current_ltv > 80 then "Medium" else "Low"
  { property_value :=
      { nominal := nominal_future_value
        real := a.calculate_inflation_adjusted_value nominal_future_value a.years }
    remaining_balance :=
      { nominal := remaining_balance
        real := remaining_balance }
    nav :=
      { nominal := nominal_nav
        real := a.calculate_inflation_adjusted_value nominal_nav a.years }
    mortgage_payment :=
      { nominal := final_monthly_payment
        real := a.calculate_inflation_adjusted_value final_monthly_payment a.years }
    rental_income :=
      { nominal := final_year_monthly_rental
        real := a.calculate_inflation_adjusted_value final_year_monthly_rental a.years }
    monthly_net_income :=
      { nominal := nominal_monthly_net_income
        real := a.calculate_inflation_adjusted_value nominal_monthly_net_income a.years }
    central_rent :=
      { nominal := final_year_monthly_central_rent
        real := a.calculate_inflation_adjusted_value final_year_monthly_central_rent a.years }
    total_monthly_cashflow :=
      { nominal := -(final_year_monthly_central_rent + |nominal_monthly_net_income|)
        real := -(a.calculate_inflation_adjusted_value
          (final_year_monthly_central_rent + |nominal_monthly_net_income|) a.years) }
    ltv := current_ltv
    default_risk := default_risk
    mortgage_breakdown :=
      { fixed_payment :=
          a.fixed_loan.get_payment_at_year (a.years - 1) a.inflation_rate a.prime_base_rate
        variable_payment :=
          a.variable_loan.get_payment_at_year (a.years - 1) a.inflation_rate a.prime_base_rate
        fixed_balance := a.fixed_loan.calculate_remaining_balance a.years
        variable_balance := a.variable_loan.calculate_remaining_balance a.years } }

/-- The `show_real_values` projection applied by the `formatted_results`
loops (lines 183-192 and 244-251). -/
def MoneyPair.select (p : MoneyPair) (show_real_values : Bool) : ℚ :=
  if show_real_values then p.real else p.nominal

/-- The `result` dict built by `calculate_rent_scenario` (lines 211-242). -/
structure RentResult where
  future_monthly_savings : MoneyPair
  future_down_payment : MoneyPair
  nav : MoneyPair
  monthly_rent : MoneyPair
  monthly_savings : MoneyPair
  total_monthly_cashflow : MoneyPair
deriving Repr, DecidableEq

/-- Embeds `RealEstateInvestmentAnalysis.calculate_rent_scenario` (lines 194-251). -/
def Analysis.calculate_rent_scenario (a : Analysis) : RentResult :=
  let total_savings := a.calculate_inflated_income_stream a.monthly_savings a.years
  let nominal_future_savings :=
    total_savings * (1 + a.savings_return_rate / 100) ^ a.years
  let nominal_future_down_payment :=
    a.down_payment * (1 + a.savings_return_rate / 100) ^ a.years
  let final_year_monthly_rent :=
    a.central_rent * (1 + a.inflation_rate / 100) ^ (a.years - 1)
  let final_year_monthly_savings :=
    a.monthly_savings * (1 + a.inflation_rate / 100) ^ (a.years - 1)
  { future_monthly_savings :=
      { nominal := nominal_future_savings
        real := a.calculate_inflation_adjusted_value nominal_future_savings a.years }
    future_down_payment :=
      { nominal := nominal_future_down_payment
        real := a.calculate_inflation_adjusted_value nominal_future_down_payment a.years }
    nav :=
      { nominal := nominal_future_savings + nominal_future_down_payment
        real := a.calculate_inflation_adjusted_value
          (nominal_future_savings + nominal_future_down_payment) a.years }
    monthly_rent :=
      { nominal := final_year_monthly_rent
        real := a.calculate_inflation_adjusted_value final_year_monthly_rent a.years }
    monthly_savings :=
      { nominal := final_year_monthly_savings
        real := a.calculate_inflation_adjusted_value final_year_monthly_savings a.years }
    total_monthly_cashflow :=
      { nominal := -(final_year_monthly_rent + final_year_monthly_savings)
        real := -(a.calculate_inflation_adjusted_value
          (final_year_monthly_rent + final_year_monthly_savings) a.years) } }

/-- One entry of the `scenarios` list of `generate_risk_scenarios`
(lines 257-282); the `description` f-string is presentation-only and
carries no numeric content beyond `growth_rate`, so it is not modelled. -/
structure RiskScenarioSpec where
  name : String
  value_change : ℚ
  growth_rate : ℚ
deriving Repr, DecidableEq

/-- The `scenarios` list (lines 257-282), built from
`base_appreciation = self.annual_appreciation_rate`. -/
def Analysis.risk_scenario_list (a : Analysis) : List RiskScenarioSpec :=
  [ { name := "Base Case", value_change := 0,
      growth_rate := a.annual_appreciation_rate },
    { name := "Market Crash", value_change := -20,
      growth_rate := a.annual_appreciation_rate - 1 },
    { name := "Stagnant Market", value_change := 0,
      growth_rate := a.annual_appreciation_rate - 1 },
    { name := "Strong Market", value_change := 5,
      growth_rate := a.annual_appreciation_rate + 1 } ]

/-- One row appended to `results` in the sweep loop (lines 291-297). -/
structure RiskRow where
  market_scenario : String
  final_property_value : ℚ
  net_asset_value : ℚ
  risk_level : String
deriving Repr, DecidableEq

/-- Models `self.annual_appreciation_rate = g` — the in-loop mutation
(line 288), modelled as a functional state update. -/
def Analysis.set_appreciation (a : Analysis) (g : ℚ) : Analysis :=
  { a with annual_appreciation_rate := g }

/-- One iteration of the sweep loop (lines 287-297): mutate the rate,
run the buy scenario, collect the row.  Returns the mutated state the
next iteration sees together with the appended row. -/
def risk_sweep_step (st : Analysis) (s : RiskScenarioSpec) (show_real_values : Bool) :
    Analysis × RiskRow :=
  let st1 := st.set_appreciation s.growth_rate
  let result := st1.calculate_buy_scenario s.value_change
  (st1,
   { market_scenario := s.name
     final_property_value := result.property_value.select show_real_values
     net_asset_value := result.nav.select show_real_values
     risk_level := result.default_risk })

/-- Embeds `RealEstateInvestmentAnalysis.generate_risk_scenarios` (lines 253-300):
the loop threads the mutated object through the four scenarios, then
line 299 restores `original_appreciation` (captured at line 285, before
the loop).  Returns the final object state together with the rows. -/
def Analysis.generate_risk_scenarios (a : Analysis) (show_real_values : Bool) :
    Analysis × List RiskRow :=
  let original_appreciation := a.annual_appreciation_rate
  let step := fun (acc : Analysis × List RiskRow) (s : RiskScenarioSpec) =>
    let (st1, row) := risk_sweep_step acc.1 s show_real_values
    (st1, acc.2 ++ [row])
  let final := a.risk_scenario_list.foldl step (a, [])
  (final.1.set_appreciation original_appreciation, final.2)

/-- Spec-side definition (for the C3 refinement): the "same annuity
formula" of spec §4.1 — `P = B·r·(1+r)^n / ((1+r)^n − 1)`. -/
def annuity_payment_spec (balance r : ℚ) (n : ℤ) : ℚ :=
  balance * (r * (1 + r) ^ n) / ((1 + r) ^ n - 1)

/-- Spec-side definition (for the C3 refinement), following spec §4.1
word for word: effective monthly rate
`(prime_base_rate + inflation_rate + spread)/12/100`; remaining term
`(term_years − elapsed_years)*12`; `0` if the remaining term is `≤ 0`;
otherwise the current remaining balance re-amortized over the remaining
term at the effective rate by the annuity formula. -/
def variable_payment_spec (m : MortgageLoan) (year : ℤ)
    (inflation_rate prime_base_rate : ℚ) : ℚ :=
  let effective_monthly_rate : ℚ :=
    (prime_base_rate + inflation_rate + m.prime_spread) / 12 / 100
  let remaining_term : ℤ := (m.term_years - year) * 12
  if remaining_term ≤ 0 then 0
  else annuity_payment_spec (m.calculate_remaining_balance year)
    effective_monthly_rate remaining_term

/-! ## Helper lemmas -/

/-- Unfolding equation for `calculate_remaining_balance`. -/
lemma MortgageLoan.calculate_remaining_balance_def (m : MortgageLoan) (year : ℤ) :
    m.calculate_remaining_balance year =
      if m.term_years * 12 ≤ year * 12 then 0
      else m.loan_amount *
        ((1 + m.base_interest_rate / 12 / 100) ^ (m.term_years * 12) -
          (1 + m.base_interest_rate / 12 / 100) ^ (year * 12)) /
        ((1 + m.base_interest_rate / 12 / 100) ^ (m.term_years * 12) - 1) :=
  rfl

/-- With a positive rate, the monthly growth factor exceeds `1`. -/
lemma one_lt_monthly_base {rate : ℚ} (hr : 0 < rate) : 1 < 1 + rate / 12 / 100 := by
  linarith

/-- With a positive rate and a term of at least one year, the accumulated
growth factor over the full term exceeds `1`. -/
lemma one_lt_term_factor (m : MortgageLoan)
    (hr : 0 < m.base_interest_rate) (ht : 1 ≤ m.term_years) :
    1 < (1 + m.base_interest_rate / 12 / 100) ^ (m.term_years * 12) :=
  one_lt_zpow₀ (one_lt_monthly_base hr) (by omega)

/-- The remaining balance at zero elapsed years is the full principal. -/
lemma MortgageLoan.calculate_remaining_balance_at_zero (m : MortgageLoan)
    (hr : 0 < m.base_interest_rate) (ht : 1 ≤ m.term_years) :
    m.calculate_remaining_balance 0 = m.loan_amount := by
  have hbn := one_lt_term_factor m hr ht
  rw [MortgageLoan.calculate_remaining_balance_def]
  rw [if_neg (by omega)]
  rw [zero_mul, zpow_zero, mul_div_assoc, div_self (by linarith), mul_one]

/-! ## Claims -/

/-- Claim C1 (counterexample): the claim says that for a fixed-rate
tranche `get_payment_at_year` returns `0` when the elapsed year equals
`term_years`.  For the concrete fixed loan with principal 1200, rate
1200 % and term 1 year, the payment at elapsed year 1 (= `term_years`)
is `1200·4096/4095 ≠ 0`: the fixed branch returns `monthly_payment`
unconditionally. -/
theorem C1_counterexample :
    (MortgageLoan.mk 1200 1200 1 true 0).get_payment_at_year 1 0 0 ≠ 0 := by
  simp only [MortgageLoan.get_payment_at_year, MortgageLoan.monthly_payment,
    MortgageLoan.calculate_initial_payment, if_true]
  norm_num

/-- Claim C1 (amended): for a fixed-rate tranche (`is_fixed = true`),
`get_payment_at_year` returns the constant monthly payment derived at
construction at *every* elapsed year — in particular at every year
strictly before `term_years`, but also at `term_years` itself, where it
does **not** return `0`. -/
theorem C1_fixed_payment_constant (m : MortgageLoan) (year : ℤ)
    (inflation_rate prime_base_rate : ℚ) (h : m.is_fixed = true) :
    m.get_payment_at_year year inflation_rate prime_base_rate = m.monthly_payment := by
  simp [MortgageLoan.get_payment_at_year, h]

/-- Witness for `C1_fixed_payment_constant` at a concrete fixed loan. -/
theorem C1_witness :
    (MortgageLoan.mk 1200 1200 1 true 0).is_fixed = true ∧
    (MortgageLoan.mk 1200 1200 1 true 0).get_payment_at_year 5 2 3 =
      (MortgageLoan.mk 1200 1200 1 true 0).monthly_payment :=
  ⟨rfl, C1_fixed_payment_constant (MortgageLoan.mk 1200 1200 1 true 0) 5 2 3 rfl⟩

/-- Claim C2: for every tranche with positive principal, positive nominal
annual rate and integer `term_years ≥ 1`:
`_calculate_remaining_balance(0)` equals the principal,
`_calculate_remaining_balance(y) = 0` for every elapsed year
`y ≥ term_years` (in particular at `term_years` itself), and the
remaining balance is monotonically non-increasing over `0 ≤ y1 ≤ y2`. -/
theorem C2_remaining_balance_boundary_monotone (m : MortgageLoan)
    (hL : 0 < m.loan_amount) (hr : 0 < m.base_interest_rate)
    (ht : 1 ≤ m.term_years) :
    m.calculate_remaining_balance 0 = m.loan_amount ∧
    (∀ y : ℤ, m.term_years ≤ y → m.calculate_remaining_balance y = 0) ∧
    (∀ y1 y2 : ℤ, 0 ≤ y1 → y1 ≤ y2 →
      m.calculate_remaining_balance y2 ≤ m.calculate_remaining_balance y1) := by
  have hb := one_lt_monthly_base hr
  have hbn := one_lt_term_factor m hr ht
  refine ⟨m.calculate_remaining_balance_at_zero hr ht, ?_, ?_⟩
  · intro y hy
    rw [MortgageLoan.calculate_remaining_balance_def]
    rw [if_pos (by omega)]
  · intro y1 y2 hy1 hy12
    rw [MortgageLoan.calculate_remaining_balance_def,
      MortgageLoan.calculate_remaining_balance_def]
    by_cases h2 : m.term_years * 12 ≤ y2 * 12
    · rw [if_pos h2]
      by_cases h1 : m.term_years * 12 ≤ y1 * 12
      · rw [if_pos h1]
      · rw [if_neg h1]
        push_neg at h1
        have hle : (1 + m.base_interest_rate / 12 / 100) ^ (y1 * 12) ≤
            (1 + m.base_interest_rate / 12 / 100) ^ (m.term_years * 12) :=
          zpow_le_zpow_right₀ hb.le h1.le
        apply div_nonneg (mul_nonneg hL.le (by linarith)) (by linarith)
    · rw [if_neg h2]
      have h1 : ¬ m.term_years * 12 ≤ y1 * 12 := by omega
      rw [if_neg h1]
      have ht12 : (1 + m.base_interest_rate / 12 / 100) ^ (y1 * 12) ≤
          (1 + m.base_interest_rate / 12 / 100) ^ (y2 * 12) :=
        zpow_le_zpow_right₀ hb.le (by omega)
      exact div_le_div_of_nonneg_right
        (mul_le_mul_of_nonneg_left (by linarith) hL.le) (by linarith)

/-- Witness for `C2_remaining_balance_boundary_monotone` at a concrete
loan (principal 1200, rate 1200 %, term 1 year). -/
theorem C2_witness :
    (MortgageLoan.mk 1200 1200 1 true 0).calculate_remaining_balance 0 = 1200 ∧
    (MortgageLoan.mk 1200 1200 1 true 0).calculate_remaining_balance 1 = 0 ∧
    (MortgageLoan.mk 1200 1200 1 true 0).calculate_remaining_balance 1 ≤
      (MortgageLoan.mk 1200 1200 1 true 0).calculate_remaining_balance 0 := by
  obtain ⟨h1, h2, h3⟩ := C2_remaining_balance_boundary_monotone
    (MortgageLoan.mk 1200 1200 1 true 0) (by norm_num) (by norm_num) (by norm_num)
  exact ⟨h1, h2 1 (by norm_num), h3 0 1 (by norm_num) (by norm_num)⟩

/-- For a variable tranche whose spread is `base rate − p`, the query
`get_payment_at_year 0 0 p` (zero elapsed years, zero inflation, prime
base `p`) re-amortizes the full principal over the full term at the
original rate, which is exactly `monthly_payment`. -/
lemma variable_payment_at_start (m : MortgageLoan) (p : ℚ)
    (hfix : m.is_fixed = false)
    (hspread : m.prime_spread = m.base_interest_rate - p)
    (hr : 0 < m.base_interest_rate) (ht : 1 ≤ m.term_years) :
    m.get_payment_at_year 0 0 p = m.monthly_payment := by
  simp only [MortgageLoan.get_payment_at_year, hfix, Bool.false_eq_true, if_false]
  rw [if_neg (by omega)]
  rw [m.calculate_remaining_balance_at_zero hr ht, hspread]
  have hrate : p + 0 + (m.base_interest_rate - p) = m.base_interest_rate := by ring
  rw [hrate]
  simp only [sub_zero]
  rfl

/-- Claim C10: for a variable-rate tranche constructed by
`RealEstateInvestmentAnalysis` (so `prime_spread = variable_rate −
prime_base_rate`) with positive principal, positive `variable_rate` and
`loan_term_years ≥ 1`, `get_payment_at_year(0, 0, prime_base_rate)`
returns exactly the constant `monthly_payment` of the tranche: the effective
rate collapses to the original `variable_rate` and the balance at year
`0` is the full principal. -/
theorem C10_variable_initial_payment (a : Analysis)
    (_hL : 0 < a.variable_loan_amount) (hr : 0 < a.variable_rate)
    (ht : 1 ≤ a.loan_term_years) :
    a.variable_loan.get_payment_at_year 0 0 a.prime_base_rate =
      a.variable_loan.monthly_payment :=
  variable_payment_at_start a.variable_loan a.prime_base_rate rfl rfl hr ht

/-- Witness for `C10_variable_initial_payment` at a concrete
configuration with a positive variable tranche. -/
theorem C10_witness :
    (Analysis.mk 1000 50 1200 1200 1 500 10 1 1000 100 100 0 50 200).variable_loan.get_payment_at_year
        0 0 (Analysis.mk 1000 50 1200 1200 1 500 10 1 1000 100 100 0 50 200).prime_base_rate =
      (Analysis.mk 1000 50 1200 1200 1 500 10 1 1000 100 100 0 50 200).variable_loan.monthly_payment :=
  C10_variable_initial_payment (Analysis.mk 1000 50 1200 1200 1 500 10 1 1000 100 100 0 50 200)
    (by norm_num [Analysis.variable_loan_amount, Analysis.loan_amount, Analysis.down_payment])
    (by norm_num) (by norm_num)

/-- Claim C3: for a variable-rate tranche, `get_payment_at_year` agrees
with the spec-side description `variable_payment_spec` (re-amortization
of the remaining balance over the remaining term at the effective
monthly rate); it returns `0` whenever the remaining term
`(term_years − elapsed_years)·12` is `≤ 0`, and in particular exactly at
`elapsed_years = term_years`. -/
theorem C3_variable_payment_refines_spec (m : MortgageLoan) (year : ℤ)
    (inflation_rate prime_base_rate : ℚ) (h : m.is_fixed = false) :
    m.get_payment_at_year year inflation_rate prime_base_rate =
      variable_payment_spec m year inflation_rate prime_base_rate ∧
    ((m.term_years - year) * 12 ≤ 0 →
      m.get_payment_at_year year inflation_rate prime_base_rate = 0) ∧
    m.get_payment_at_year m.term_years inflation_rate prime_base_rate = 0 := by
  refine ⟨?_, ?_, ?_⟩
  · simp only [MortgageLoan.get_payment_at_year, variable_payment_spec,
      annuity_payment_spec, h, Bool.false_eq_true, if_false]
  · intro hterm
    simp only [MortgageLoan.get_payment_at_year, h, Bool.false_eq_true, if_false]
    rw [if_pos hterm]
  · simp only [MortgageLoan.get_payment_at_year, h, Bool.false_eq_true, if_false]
    rw [if_pos (by omega)]

/-- Witness for `C3_variable_payment_refines_spec` at a concrete
variable loan, both mid-term and at the `term_years` boundary. -/
theorem C3_witness :
    (MortgageLoan.mk 1200 1200 1 false 5).get_payment_at_year 0 2 3 =
      variable_payment_spec (MortgageLoan.mk 1200 1200 1 false 5) 0 2 3 ∧
    (MortgageLoan.mk 1200 1200 1 false 5).get_payment_at_year 1 2 3 = 0 :=
  ⟨(C3_variable_payment_refines_spec (MortgageLoan.mk 1200 1200 1 false 5) 0 2 3 rfl).1,
   (C3_variable_payment_refines_spec (MortgageLoan.mk 1200 1200 1 false 5) 1 2 3 rfl).2.2⟩

/-- Claim C4: in `calculate_buy_scenario`, the `real` value of each monetary metric
value is its `nominal` value divided by `(1 + inflation_rate/100)^years`
— with the single exception of `remaining_balance`, whose `real` and
`nominal` values are identical. -/
theorem C4_real_is_deflated_nominal (a : Analysis) (change : ℚ) :
    (a.calculate_buy_scenario change).property_value.real =
      (a.calculate_buy_scenario change).property_value.nominal /
        (1 + a.inflation_rate / 100) ^ a.years ∧
    (a.calculate_buy_scenario change).nav.real =
      (a.calculate_buy_scenario change).nav.nominal /
        (1 + a.inflation_rate / 100) ^ a.years ∧
    (a.calculate_buy_scenario change).mortgage_payment.real =
      (a.calculate_buy_scenario change).mortgage_payment.nominal /
        (1 + a.inflation_rate / 100) ^ a.years ∧
    (a.calculate_buy_scenario change).rental_income.real =
      (a.calculate_buy_scenario change).rental_income.nominal /
        (1 + a.inflation_rate / 100) ^ a.years ∧
    (a.calculate_buy_scenario change).monthly_net_income.real =
      (a.calculate_buy_scenario change).monthly_net_income.nominal /
        (1 + a.inflation_rate / 100) ^ a.years ∧
    (a.calculate_buy_scenario change).central_rent.real =
      (a.calculate_buy_scenario change).central_rent.nominal /
        (1 + a.inflation_rate / 100) ^ a.years ∧
    (a.calculate_buy_scenario change).total_monthly_cashflow.real =
      (a.calculate_buy_scenario change).total_monthly_cashflow.nominal /
        (1 + a.inflation_rate / 100) ^ a.years ∧
    (a.calculate_buy_scenario change).remaining_balance.real =
      (a.calculate_buy_scenario change).remaining_balance.nominal := by
  refine ⟨rfl, rfl, rfl, rfl, rfl, rfl, ?_, rfl⟩
  exact (neg_div _ _).symm

/-- Claim C5: with non-negative `central_rent`, `rental_income` and
`monthly_savings`, `inflation_rate > −100` and `years ≥ 1`, the
`total_monthly_cashflow` of both scenarios is `≤ 0` in the nominal and
the real view. -/
theorem C5_total_monthly_cashflow_nonpos (a : Analysis)
    (hc : 0 ≤ a.central_rent) (_hri : 0 ≤ a.rental_income)
    (hs : 0 ≤ a.monthly_savings) (hi : -100 < a.inflation_rate)
    (_hy : 1 ≤ a.years) (change : ℚ) :
    (a.calculate_buy_scenario change).total_monthly_cashflow.nominal ≤ 0 ∧
    (a.calculate_buy_scenario change).total_monthly_cashflow.real ≤ 0 ∧
    (a.calculate_rent_scenario).total_monthly_cashflow.nominal ≤ 0 ∧
    (a.calculate_rent_scenario).total_monthly_cashflow.real ≤ 0 := by
  have hb : (0:ℚ) < 1 + a.inflation_rate / 100 := by linarith
  have hesc : (0:ℚ) < (1 + a.inflation_rate / 100) ^ (a.years - 1) := zpow_pos hb _
  have hf : (0:ℚ) < (1 + a.inflation_rate / 100) ^ a.years := zpow_pos hb _
  have hbuy : (0:ℚ) ≤ a.central_rent * (1 + a.inflation_rate / 100) ^ (a.years - 1) +
      |a.rental_income * (1 + a.inflation_rate / 100) ^ (a.years - 1) -
        a.calculate_total_mortgage_payment (a.years - 1)| :=
    add_nonneg (mul_nonneg hc hesc.le) (abs_nonneg _)
  have hrent : (0:ℚ) ≤ a.central_rent * (1 + a.inflation_rate / 100) ^ (a.years - 1) +
      a.monthly_savings * (1 + a.inflation_rate / 100) ^ (a.years - 1) :=
    add_nonneg (mul_nonneg hc hesc.le) (mul_nonneg hs hesc.le)
  refine ⟨?_, ?_, ?_, ?_⟩ <;>
    simp only [Analysis.calculate_buy_scenario, Analysis.calculate_rent_scenario,
      Analysis.calculate_inflation_adjusted_value, neg_nonpos]
  · exact hbuy
  · exact div_nonneg hbuy hf.le
  · exact hrent
  · exact div_nonneg hrent hf.le

/-- Witness for `C5_total_monthly_cashflow_nonpos` at a concrete valid
configuration. -/
theorem C5_witness :
    ((Analysis.mk 1000 50 1200 1200 1 500 10 1 1000 100 100 0 50 200).calculate_buy_scenario
        0).total_monthly_cashflow.nominal ≤ 0 ∧
    ((Analysis.mk 1000 50 1200 1200 1 500 10 1 1000 100 100 0 50 200).calculate_buy_scenario
        0).total_monthly_cashflow.real ≤ 0 ∧
    ((Analysis.mk 1000 50 1200 1200 1 500 10 1 1000 100 100 0 50
        200).calculate_rent_scenario).total_monthly_cashflow.nominal ≤ 0 ∧
    ((Analysis.mk 1000 50 1200 1200 1 500 10 1 1000 100 100 0 50
        200).calculate_rent_scenario).total_monthly_cashflow.real ≤ 0 :=
  C5_total_monthly_cashflow_nonpos
    (Analysis.mk 1000 50 1200 1200 1 500 10 1 1000 100 100 0 50 200)
    (by norm_num) (by norm_num) (by norm_num) (by norm_num) (by norm_num) 0

/-- Claim C6: `default_risk` is exactly `"High"` iff `ltv > 90`,
`"Medium"` iff `80 < ltv ≤ 90`, and `"Low"` iff `ltv ≤ 80` — so the
boundary values `ltv = 80` and `ltv = 90` map to `"Low"` and `"Medium"`
respectively (strict comparisons). -/
theorem C6_default_risk_tiers (a : Analysis) (change : ℚ) :
    ((a.calculate_buy_scenario change).default_risk = "High" ↔
      90 < (a.calculate_buy_scenario change).ltv) ∧
    ((a.calculate_buy_scenario change).default_risk = "Medium" ↔
      80 < (a.calculate_buy_scenario change).ltv ∧
        (a.calculate_buy_scenario change).ltv ≤ 90) ∧
    ((a.calculate_buy_scenario change).default_risk = "Low" ↔
      (a.calculate_buy_scenario change).ltv ≤ 80) := by
  simp only [Analysis.calculate_buy_scenario]
  split_ifs with h1 h2
  · exact ⟨iff_of_true rfl h1,
      iff_of_false (by decide) (fun h => by linarith [h.2]),
      iff_of_false (by decide) (not_le.mpr (by linarith))⟩
  · exact ⟨iff_of_false (by decide) h1,
      iff_of_true rfl ⟨h2, not_lt.mp h1⟩,
      iff_of_false (by decide) (not_le.mpr h2)⟩
  · exact ⟨iff_of_false (by decide) h1,
      iff_of_false (by decide) (fun h => h2 h.1),
      iff_of_true rfl (not_lt.mp h2)⟩

/-- Claim C7 (counterexample): the claim says that at `years = 0` with
positive inflation the final-year escalation factor
`(1 + inflation_rate/100)^(years−1)` is a multiplier greater than `1`.
At the concrete configuration with `years = 0` and `inflation_rate = 2`
the buy scenario does apply the factor literally with exponent `−1`, but
the factor is `50/51 < 1`, not greater than `1`. -/
theorem C7_counterexample :
    ((Analysis.mk 1000 50 1200 1200 1 500 10 0 1000 100 100 2 50
        200).calculate_buy_scenario 0).central_rent.nominal =
      1000 * (1 + (2:ℚ) / 100) ^ ((0:ℤ) - 1) ∧
    ¬ (1 < (1 + (2:ℚ) / 100) ^ ((0:ℤ) - 1)) := by
  refine ⟨rfl, ?_⟩
  norm_num

/-- Claim C7 (amended): when `years = 0` and `inflation_rate > 0`, both
scenario methods compute the final-year escalation factor literally as
`(1 + inflation_rate/100)^(years−1)` — exponent `−1`, no clamping — and
this factor is a multiplier strictly between `0` and `1` (not greater
than `1`). -/
theorem C7_escalation_factor_amended (a : Analysis) (h0 : a.years = 0)
    (hi : 0 < a.inflation_rate) (change : ℚ) :
    (a.calculate_buy_scenario change).central_rent.nominal =
      a.central_rent * (1 + a.inflation_rate / 100) ^ (a.years - 1) ∧
    (a.calculate_buy_scenario change).rental_income.nominal =
      a.rental_income * (1 + a.inflation_rate / 100) ^ (a.years - 1) ∧
    (a.calculate_rent_scenario).monthly_rent.nominal =
      a.central_rent * (1 + a.inflation_rate / 100) ^ (a.years - 1) ∧
    (a.calculate_rent_scenario).monthly_savings.nominal =
      a.monthly_savings * (1 + a.inflation_rate / 100) ^ (a.years - 1) ∧
    0 < (1 + a.inflation_rate / 100) ^ (a.years - 1) ∧
    (1 + a.inflation_rate / 100) ^ (a.years - 1) < 1 := by
  have hb : (1:ℚ) < 1 + a.inflation_rate / 100 := by linarith
  exact ⟨rfl, rfl, rfl, rfl, zpow_pos (by linarith) _,
    zpow_lt_one_of_neg₀ hb (by omega)⟩

/-- Witness for `C7_escalation_factor_amended` at the same concrete
configuration (`years = 0`, `inflation_rate = 2`). -/
theorem C7_witness :
    ((Analysis.mk 1000 50 1200 1200 1 500 10 0 1000 100 100 2 50
        200).calculate_buy_scenario 0).central_rent.nominal =
      1000 * (1 + (2:ℚ) / 100) ^ ((0:ℤ) - 1) ∧
    ((Analysis.mk 1000 50 1200 1200 1 500 10 0 1000 100 100 2 50
        200).calculate_buy_scenario 0).rental_income.nominal =
      500 * (1 + (2:ℚ) / 100) ^ ((0:ℤ) - 1) ∧
    ((Analysis.mk 1000 50 1200 1200 1 500 10 0 1000 100 100 2 50
        200).calculate_rent_scenario).monthly_rent.nominal =
      1000 * (1 + (2:ℚ) / 100) ^ ((0:ℤ) - 1) ∧
    ((Analysis.mk 1000 50 1200 1200 1 500 10 0 1000 100 100 2 50
        200).calculate_rent_scenario).monthly_savings.nominal =
      100 * (1 + (2:ℚ) / 100) ^ ((0:ℤ) - 1) ∧
    0 < (1 + (2:ℚ) / 100) ^ ((0:ℤ) - 1) ∧
    (1 + (2:ℚ) / 100) ^ ((0:ℤ) - 1) < 1 :=
  C7_escalation_factor_amended
    (Analysis.mk 1000 50 1200 1200 1 500 10 0 1000 100 100 2 50 200)
    rfl (by norm_num) 0

/-- Claim C8: `generate_risk_scenarios` evaluates the four variants —
Base Case `(0, g)`, Market Crash `(−20, g−1)`, Stagnant Market
`(0, g−1)`, Strong Market `(+5, g+1)` where `g` is the current
`annual_appreciation_rate` — each by running the buy scenario on the
state with `annual_appreciation_rate` set to the growth rate of the variant,
and the state it returns equals the pre-call state (the rate is
restored). -/
theorem C8_risk_sweep_variants_and_restore (a : Analysis) (sr : Bool) :
    (a.generate_risk_scenarios sr).1 = a ∧
    (a.generate_risk_scenarios sr).2 = [
      { market_scenario := "Base Case"
        final_property_value := ((a.set_appreciation
          a.annual_appreciation_rate).calculate_buy_scenario 0).property_value.select sr
        net_asset_value := ((a.set_appreciation
          a.annual_appreciation_rate).calculate_buy_scenario 0).nav.select sr
        risk_level := ((a.set_appreciation
          a.annual_appreciation_rate).calculate_buy_scenario 0).default_risk },
      { market_scenario := "Market Crash"
        final_property_value := ((a.set_appreciation
          (a.annual_appreciation_rate - 1)).calculate_buy_scenario (-20)).property_value.select sr
        net_asset_value := ((a.set_appreciation
          (a.annual_appreciation_rate - 1)).calculate_buy_scenario (-20)).nav.select sr
        risk_level := ((a.set_appreciation
          (a.annual_appreciation_rate - 1)).calculate_buy_scenario (-20)).default_risk },
      { market_scenario := "Stagnant Market"
        final_property_value := ((a.set_appreciation
          (a.annual_appreciation_rate - 1)).calculate_buy_scenario 0).property_value.select sr
        net_asset_value := ((a.set_appreciation
          (a.annual_appreciation_rate - 1)).calculate_buy_scenario 0).nav.select sr
        risk_level := ((a.set_appreciation
          (a.annual_appreciation_rate - 1)).calculate_buy_scenario 0).default_risk },
      { market_scenario := "Strong Market"
        final_property_value := ((a.set_appreciation
          (a.annual_appreciation_rate + 1)).calculate_buy_scenario 5).property_value.select sr
        net_asset_value := ((a.set_appreciation
          (a.annual_appreciation_rate + 1)).calculate_buy_scenario 5).nav.select sr
        risk_level := ((a.set_appreciation
          (a.annual_appreciation_rate + 1)).calculate_buy_scenario 5).default_risk } ] :=
  ⟨rfl, rfl⟩

/-- Folding `+ f y` over `List.range n` starting from `0` is the sum of
`f` over `Finset.range n`. -/
lemma foldl_range_add_eq_sum (f : ℕ → ℚ) (n : ℕ) :
    (List.range n).foldl (fun t y => t + f y) 0 = ∑ y ∈ Finset.range n, f y := by
  induction n with
  | zero => simp
  | succ k ih =>
    rw [List.range_succ, List.foldl_append, ih, List.foldl_cons, List.foldl_nil,
      Finset.sum_range_succ]

/-- The income-stream loop computes the simple inflation-escalated sum. -/
lemma calculate_inflated_income_stream_eq_sum (a : Analysis) (amt : ℚ) (years : ℤ) :
    a.calculate_inflated_income_stream amt years =
      ∑ y ∈ Finset.range years.toNat, amt * 12 * (1 + a.inflation_rate / 100) ^ y :=
  foldl_range_add_eq_sum _ _

/-- Claim C9: `calculate_rent_scenario` forms the total savings as the
simple sum over years `y ∈ [0, years)` of
`monthly_savings·12·(1 + inflation_rate/100)^y`, applies the single
growth factor `(1 + savings_return_rate/100)^years` to that whole sum,
and the nominal `nav` is this future savings value plus
`down_payment·(1 + savings_return_rate/100)^years`. -/
theorem C9_rent_savings_single_compounding (a : Analysis) (_hy : 1 ≤ a.years) :
    (a.calculate_rent_scenario).future_monthly_savings.nominal =
      (∑ y ∈ Finset.range a.years.toNat,
        a.monthly_savings * 12 * (1 + a.inflation_rate / 100) ^ y) *
        (1 + a.savings_return_rate / 100) ^ a.years ∧
    (a.calculate_rent_scenario).nav.nominal =
      (∑ y ∈ Finset.range a.years.toNat,
        a.monthly_savings * 12 * (1 + a.inflation_rate / 100) ^ y) *
        (1 + a.savings_return_rate / 100) ^ a.years +
      a.down_payment * (1 + a.savings_return_rate / 100) ^ a.years := by
  refine ⟨?_, ?_⟩ <;>
    simp only [Analysis.calculate_rent_scenario] <;>
    rw [calculate_inflated_income_stream_eq_sum]

/-- Witness for `C9_rent_savings_single_compounding` at a concrete
two-year configuration. -/
theorem C9_witness :
    ((Analysis.mk 1000 50 1200 1200 1 500 10 2 1000 100 100 0 50
        200).calculate_rent_scenario).future_monthly_savings.nominal =
      (∑ y ∈ Finset.range (2:ℤ).toNat,
        100 * 12 * (1 + (0:ℚ) / 100) ^ y) * (1 + (100:ℚ) / 100) ^ (2:ℤ) ∧
    ((Analysis.mk 1000 50 1200 1200 1 500 10 2 1000 100 100 0 50
        200).calculate_rent_scenario).nav.nominal =
      (∑ y ∈ Finset.range (2:ℤ).toNat,
        100 * 12 * (1 + (0:ℚ) / 100) ^ y) * (1 + (100:ℚ) / 100) ^ (2:ℤ) +
      (Analysis.mk 1000 50 1200 1200 1 500 10 2 1000 100 100 0 50 200).down_payment *
        (1 + (100:ℚ) / 100) ^ (2:ℤ) :=
  C9_rent_savings_single_compounding
    (Analysis.mk 1000 50 1200 1200 1 500 10 2 1000 100 100 0 50 200) (by norm_num)

end RECalc
